import Mathlib

/-!
Verification development for the flashcards spaced-repetition trainer
(`src/scripts/app.js` front-end module and its `src/unnamed/part_000`
variant, plus the Express server embedded at the end of `app.js`).

Modelling conventions:
* JavaScript numbers are modelled as exact rationals (`ℚ`).  All the
  constants involved (2.5, 0.2, 0.15, 1.3, 1.2, 86400000, ...) are exact
  decimal fractions, so the arithmetic of the scheduler is represented
  exactly.
* `Math.round` is `round` (round half towards positive infinity), which
  matches JavaScript semantics for every real argument.
* JavaScript truthiness of a number is `≠ 0` (`NaN` does not arise in the
  client scheduler paths modelled here: entries come from the defaulted
  record or from previously graded records).
* Objects parsed from JSON (the sync/sanitizer layer) are modelled by the
  `JSVal` type below, with explicit truthiness and property lookup.
* DOM rendering, audio and network transport are outside the model; the
  functions below are the pure state transitions the code performs.
-/

namespace Flashcards

/-- JavaScript `x || d` on numbers: `x` when truthy (nonzero), else `d`. -/
def qOr (x d : ℚ) : ℚ := if x = 0 then d else x

theorem qOr_of_ne_zero {x : ℚ} (d : ℚ) (h : x ≠ 0) : qOr x d = x := if_neg h

theorem qOr_zero (d : ℚ) : qOr 0 d = d := if_pos rfl

/-- A per-word review record, as stored in `progress.cards[word]`
(fields of the default object in `gradeCard`, `app.js:561-569`). -/
structure Entry where
  ease : ℚ
  interval : ℚ
  repetitions : ℚ
  due : ℚ
  lastReview : Option ℚ
  totalReviews : ℚ
  lapses : ℚ
  seen : Bool
deriving DecidableEq, Repr

/-- The scheduler configuration fields read by `gradeCard`/`buildQueues`
(`DEFAULT_SETTINGS` also has presentation-only fields, omitted here). -/
structure Settings where
  dailyNewLimit : ℚ
  lapseMinutes : ℚ
deriving DecidableEq, Repr

/-- The `DEFAULT_SETTINGS` scheduling fields (`app.js:42-49`). -/
def defaultSettings : Settings := { dailyNewLimit := 20, lapseMinutes := 10 }

/-- The grade branch of `gradeCard` (`app.js:588-622`): the pure update of a
single review record by a grade at time `now`, including the trailing
`entry.due` / `entry.lastReview` assignments.  Grades are 0 = Again,
1 = Hard, 2 = Good, 3 = Easy. -/
def applyGrade (s : Settings) (now : ℚ) (e : Entry) (grade : ℕ) : Entry :=
  if grade = 0 then
    { e with
      repetitions := 0
      interval := 0
      ease := max 1.3 (qOr e.ease 2.5 - 0.2)
      due := now + s.lapseMinutes * 60 * 1000
      lapses := qOr e.lapses 0 + 1
      lastReview := some now }
  else
    let e1 := { e with ease := qOr e.ease 2.5 }
    let e2 :=
      if grade = 1 then
        { e1 with
          ease := max 1.3 (e1.ease - 0.15)
          interval :=
            if e1.interval ≠ 0 then ((max 1 (round (e1.interval * 1.2)) : ℤ) : ℚ) else 1 }
      else if grade = 2 then
        { e1 with
          interval :=
            if e1.repetitions = 0 then 1
            else if e1.repetitions = 1 then 6
            else ((max 1 (round (e1.interval * e1.ease)) : ℤ) : ℚ)
          repetitions := e1.repetitions + 1 }
      else if grade = 3 then
        let newEase := e1.ease + 0.15
        { e1 with
          ease := newEase
          interval :=
            if e1.repetitions = 0 then 4
            else if e1.repetitions = 1 then ((round (e1.interval * 2.5) : ℤ) : ℚ)
            else ((max 1 (round (e1.interval * newEase * 1.3)) : ℤ) : ℚ)
          repetitions := e1.repetitions + 1 }
      else e1
    { e2 with due := now + qOr e2.interval 1 * 86400000, lastReview := some now }

/-- The daily counters singleton `progress.meta` (`createEmptyProgress`,
`app.js:106-115`).  Calendar day keys are modelled as opaque strings, as in
the source (`getTodayKey` returns an ISO date string). -/
structure Meta where
  lastReviewDay : String
  reviewsToday : ℚ
  newToday : ℚ
deriving DecidableEq, Repr

/-- The queue a card was served from (`state.currentKind`). -/
inductive Kind where
  | new
  | review
deriving DecidableEq, Repr

/-- A catalog card; only the fields the scheduler reads are modelled
(presentational fields such as audio URLs are not used by the core). -/
structure Card where
  word : String
  translation : String
  level : Option String
deriving DecidableEq, Repr

/-- The progress snapshot `{cards, meta}`.  The JavaScript object
`progress.cards` is modelled as an association list keyed by word;
lookup takes the first match and assignment replaces in place or
appends, as JavaScript property semantics do. -/
structure Progress where
  cards : List (String × Entry)
  meta : Meta
deriving DecidableEq, Repr

/-- Property read `progress.cards[word]`. -/
def lookupEntry (cards : List (String × Entry)) (w : String) : Option Entry :=
  (cards.find? (fun p => p.1 == w)).map Prod.snd

/-- Property write `progress.cards[word] = entry`. -/
def setEntry : List (String × Entry) → String → Entry → List (String × Entry)
  | [], w, e => [(w, e)]
  | (k, v) :: rest, w, e =>
      if k == w then (k, e) :: rest else (k, v) :: setEntry rest w e

/-- A session-history item (`state.history` elements). -/
structure HistEntry where
  word : String
  mode : String
  grade : ℕ
  timestamp : ℚ
deriving DecidableEq, Repr

/-- The mutable front-end state touched by the scheduling core
(`progress` and the scheduler-relevant fields of `state`). -/
structure AppState where
  progress : Progress
  history : List HistEntry
  reviewQueue : List Card
  newQueue : List Card
  currentCard : Option Card
  currentKind : Option Kind
  showingAnswer : Bool
  mode : String
  level : String
deriving DecidableEq, Repr

/-- Source function `matchesLevel` (`app.js:351-354`). -/
def matchesLevel (card : Card) (level : String) : Bool :=
  if level == "all" then true
  else (card.level.getD "").toUpper == level.toUpper

/-- The classification loop of `buildQueues` (`app.js:362-373`): returns
the `review` and `fresh` lists in catalog order.  A card with no record
or a falsy `due` goes to `fresh`; a truthy `due ≤ now` goes to `review`;
a truthy `due > now` is dropped. -/
def partitionDue (lookup : String → Option Entry) (now : ℚ) :
    List Card → List Card × List Card
  | [] => ([], [])
  | c :: rest =>
    let p := partitionDue lookup now rest
    match lookup c.word with
    | none => (p.1, c :: p.2)
    | some e =>
        if e.due ≠ 0 ∧ e.due ≤ now then (c :: p.1, p.2)
        else if e.due = 0 then (p.1, c :: p.2)
        else p

/-- The sort key of the review sort: `progress.cards[c.word]?.due ?? 0`. -/
def dueKey (cards : List (String × Entry)) (c : Card) : ℚ :=
  match lookupEntry cards c.word with
  | some e => e.due
  | none => 0

/-- Stable insertion used by `sortByDue`: a card is placed before the
first strictly later-due card, so equal keys keep their original order
(JavaScript `Array.prototype.sort` is stable). -/
def insertByDue (key : Card → ℚ) (c : Card) : List Card → List Card
  | [] => [c]
  | d :: rest => if key c < key d then c :: d :: rest else d :: insertByDue key c rest

/-- Stable sort of the review bucket ascending by due
(`review.sort((a, b) => dueA - dueB)`, `app.js:375-379`). -/
def sortByDue (key : Card → ℚ) : List Card → List Card
  | [] => []
  | c :: rest => insertByDue key c (sortByDue key rest)

/-- The new-queue quota loop (`app.js:381-387`): take cards from `fresh`
in order while the queue length stays below `remainingNew`. -/
def takeNewQuota (remaining : ℚ) : ℕ → List Card → List Card
  | _, [] => []
  | len, c :: rest =>
      if remaining ≤ (len : ℚ) then [] else c :: takeNewQuota remaining (len + 1) rest

/-- Source function `buildQueues` (`app.js:356-391`), minus the DOM-only `updateStats`. -/
def buildQueues (catalog : List Card) (s : Settings) (now : ℚ) (st : AppState) :
    AppState :=
  let filtered := catalog.filter (fun c => matchesLevel c st.level)
  let p := partitionDue (lookupEntry st.progress.cards) now filtered
  let review := sortByDue (dueKey st.progress.cards) p.1
  let remainingNew := max 0 (s.dailyNewLimit - st.progress.meta.newToday)
  { st with reviewQueue := review, newQueue := takeNewQuota remainingNew 0 p.2 }

/-- Source function `pickNextCard` (`app.js:407-423`). -/
def pickNextCard (st : AppState) : AppState :=
  match st.reviewQueue with
  | c :: rest =>
      { st with reviewQueue := rest, currentCard := some c, currentKind := some Kind.review }
  | [] =>
    match st.newQueue with
    | c :: rest =>
        { st with newQueue := rest, currentCard := some c, currentKind := some Kind.new }
    | [] => { st with currentCard := none, currentKind := none }

/-- The defaulted record used when a word is graded for the first time
(`app.js:561-569`; the object literal has no `seen` key, i.e. falsy). -/
def defaultEntry (now : ℚ) : Entry :=
  { ease := 2.5, interval := 0, repetitions := 0, due := now,
    lastReview := none, totalReviews := 0, lapses := 0, seen := false }

/-- Source function `gradeCard` (`app.js:556-641`): the full state transition of a grade
event — day rollover, new-quota accounting, counters, the grade branch,
record write-back, history push (bounded to 12), queue rebuild and next
card selection.  `saveProgress` and the render calls are I/O and are not
part of the state. -/
def gradeCard (catalog : List Card) (s : Settings) (today : String) (now : ℚ)
    (st : AppState) (grade : ℕ) : AppState :=
  match st.currentCard with
  | none => st
  | some card =>
    let entry := (lookupEntry st.progress.cards card.word).getD (defaultEntry now)
    let meta :=
      if st.progress.meta.lastReviewDay ≠ today then
        { lastReviewDay := today, reviewsToday := 0, newToday := 0 }
      else st.progress.meta
    let isNewUnseen : Bool := st.currentKind == some Kind.new && !entry.seen
    let entry := if isNewUnseen then { entry with seen := true } else entry
    let meta :=
      if isNewUnseen then
        { meta with newToday := min s.dailyNewLimit (meta.newToday + 1) }
      else meta
    let meta := { meta with reviewsToday := meta.reviewsToday + 1 }
    let entry := { entry with totalReviews := entry.totalReviews + 1 }
    let entry := applyGrade s now entry grade
    let st1 : AppState :=
      { st with
        progress := { cards := setEntry st.progress.cards card.word entry, meta := meta }
        history :=
          ({ word := card.word, mode := st.mode, grade := grade, timestamp := now }
            :: st.history).take 12
        currentCard := none
        currentKind := none
        showingAnswer := false }
    pickNextCard (buildQueues catalog s now st1)

/-! ## JSON values

The sync layer and the server sanitizer operate on values parsed from
JSON (plus `undefined` for absent properties), modelled by `JSVal`. -/

/-- A JavaScript number: finite (exact rational) or one of the three
non-finite values. -/
inductive JSNum where
  | finite (q : ℚ)
  | nan
  | posInf
  | negInf
deriving DecidableEq, Repr

/-- A JavaScript value as seen by the sync/sanitizer code. -/
inductive JSVal where
  | vnull
  | vundefined
  | vbool (b : Bool)
  | vnum (n : JSNum)
  | vstr (s : String)
  | vobj (fields : List (String × JSVal))
  | varr (elems : List JSVal)

/-- JavaScript truthiness. -/
def jsTruthy : JSVal → Bool
  | .vnull => false
  | .vundefined => false
  | .vbool b => b
  | .vnum (.finite q) => decide (q ≠ 0)
  | .vnum .nan => false
  | .vnum .posInf => true
  | .vnum .negInf => true
  | .vstr s => decide (s ≠ "")
  | .vobj _ => true
  | .varr _ => true

/-- The check `v && typeof v === \x27object\x27` used before iterating an
object: truthy and of object type (arrays included, `null` excluded by
truthiness). -/
def jsTruthyObject : JSVal → Bool
  | .vobj _ => true
  | .varr _ => true
  | _ => false

/-- Property access `v.key` (also covering the optional-chaining reads in
the source, whose receivers are non-null where used): `undefined` on
non-objects and missing keys. -/
def jsGet (v : JSVal) (key : String) : JSVal :=
  match v with
  | .vobj fields => ((fields.find? (fun p => p.1 == key)).map Prod.snd).getD .vundefined
  | _ => .vundefined

/-- Value of a list of decimal digit characters. -/
def digitsVal (cs : List Char) : ℕ :=
  cs.foldl (fun n c => n * 10 + (c.toNat - 48)) 0

/-- Coercion `Number(s)` for a string, modelled for the forms that matter here:
whitespace-only strings coerce to 0 and optionally signed digit strings
to their value; every other string is modelled as `NaN` (JavaScript also
parses fractional, exponent and hex forms — the sanitizer properties
proved below do not depend on which number a string coerces to). -/
def strToNum (s : String) : JSNum :=
  let t := s.trim
  if t = "" then .finite 0
  else
    match t.toList with
    | '-' :: rest =>
        if rest ≠ [] ∧ rest.all Char.isDigit then .finite (-(digitsVal rest : ℚ))
        else .nan
    | cs => if cs.all Char.isDigit then .finite (digitsVal cs) else .nan

/-- Coercion `Number(v)`.  Objects are modelled as coercing to `NaN`
(JavaScript coerces them through their string form; the only users below
are guarded by `Number.isFinite`, for which any non-finite result is
equivalent). -/
def toNumber : JSVal → JSNum
  | .vnull => .finite 0
  | .vundefined => .nan
  | .vbool true => .finite 1
  | .vbool false => .finite 0
  | .vnum n => n
  | .vstr s => strToNum s
  | .vobj _ => .nan
  | .varr _ => .nan

/-- Enumeration `Object.entries(v)` for the values it is applied to. -/
def jsEntries : JSVal → List (String × JSVal)
  | .vobj fields => fields
  | .varr elems => (elems.enum.map fun p => (toString p.1, p.2))
  | _ => []

/-! ## Sync reconciler (load / persist) -/

/-- Source function `createEmptyProgress()` (`app.js:106-115`) as a JSON value. -/
def createEmptyProgress (today : String) : JSVal :=
  .vobj [("cards", .vobj []),
         ("meta", .vobj [("lastReviewDay", .vstr today),
                         ("reviewsToday", .vnum (.finite 0)),
                         ("newToday", .vnum (.finite 0))])]

/-- Outcome of the remote `get` in `loadProgress`: a document was found,
the document does not exist (`!snapshot.exists()`), or the fetch threw. -/
inductive RemoteLoad where
  | found (data : JSVal)
  | notFound
  | failure

/-- The fallback expression repeated in `loadProgress`
(`const fallback = storedProgress || fallbackProgress;
progress = fallback?.cards ? fallback : createEmptyProgress();`).
`stored` is the validated local-cache snapshot (or `none`),
`fallbackProgress` the JSON round-trip copy of the previous in-memory
snapshot taken at entry. -/
def localFallback (stored : Option JSVal) (fallbackProgress : JSVal)
    (today : String) : JSVal :=
  let fb := stored.getD fallbackProgress
  if jsTruthy (jsGet fb "cards") then fb else createEmptyProgress today

/-- The snapshot-adoption logic of `loadProgress` (`app.js:169-232`): which
progress value becomes authoritative, as a function of authentication,
the remote result, the local cache and the previous in-memory snapshot.
(History adoption and the notice texts are independent of this choice and
are omitted.) -/
def loadProgress (today : String) (signedIn : Bool) (remote : RemoteLoad)
    (stored : Option JSVal) (fallbackProgress : JSVal) : JSVal :=
  if signedIn then
    match remote with
    | .found data =>
        if jsTruthy (jsGet (jsGet data "progress") "cards")
            && jsTruthy (jsGet (jsGet data "progress") "meta") then
          jsGet data "progress"
        else localFallback stored fallbackProgress today
    | .notFound => localFallback stored fallbackProgress today
    | .failure => localFallback stored fallbackProgress today
  else
    match stored with
    | some st => if jsTruthy (jsGet st "cards") then st else createEmptyProgress today
    | none => createEmptyProgress today

/-- Result of the remote write attempted by `persistProgress`. -/
inductive RemoteWriteResult where
  | ok
  | failed
deriving DecidableEq, Repr

/-- The auth-banner effect of `persistProgress`. -/
inductive SyncNotice where
  | unchanged
  | cleared
  | saveFailed
deriving DecidableEq, Repr

/-- Source function `persistProgress` (`app.js:234-257`): the local cache write, the notice
and whether the error is re-thrown, for each combination of sign-in state
and remote outcome.  Result: (local cache contents afterwards, notice,
whether the promise rejects). -/
def persistProgress (signedIn : Bool) (remote : RemoteWriteResult)
    (snapshot : Progress) : Option Progress × SyncNotice × Bool :=
  if signedIn then
    match remote with
    | .ok => (some snapshot, .cleared, false)
    | .failed => (some snapshot, .saveFailed, true)
  else (some snapshot, .unchanged, false)

/-- Outcome of the `POST /api/progress` fetch in the `part_000` variant. -/
inductive ApiWriteResult where
  | ok
  | status401
  | status404
  | otherFailure
deriving DecidableEq, Repr

/-- Source function `persistProgress` of the `part_000` variant (`part_000:212-258`):
the 401 path writes the local cache before throwing `Unauthorized` (the
catch block skips the second write for that error), the 404 path writes
locally and returns normally, and any other failure writes locally in the
catch block and re-throws.  Result: (local cache afterwards, whether the
promise rejects). -/
def persistProgressApi (signedIn hasToken : Bool) (remote : ApiWriteResult)
    (snapshot : Progress) : Option Progress × Bool :=
  if signedIn then
    if !hasToken then (some snapshot, false)
    else
      match remote with
      | .ok => (some snapshot, false)
      | .status401 => (some snapshot, true)
      | .status404 => (some snapshot, false)
      | .otherFailure => (some snapshot, true)
  else (some snapshot, false)

/-! ## Server-side sanitizer (`app.js:1140-1182`) -/

/-- A sanitized per-card record as produced by the server. -/
structure ServerEntry where
  ease : ℚ
  interval : ℚ
  repetitions : ℚ
  due : ℚ
  lastReview : Option ℚ
  totalReviews : ℚ
  lapses : ℚ
  seen : Bool
deriving DecidableEq, Repr

/-- A sanitized snapshot as produced by the server. -/
structure ServerProgress where
  cards : List (String × ServerEntry)
  meta : Meta
deriving DecidableEq, Repr

/-- Source function `sanitizeNumber` (`app.js:1140-1143`). -/
def sanitizeNumber (v : JSVal) (fallback : ℚ) : ℚ :=
  match toNumber v with
  | .finite q => q
  | _ => fallback

/-- The per-entry body of the `sanitizeProgress` loop (`app.js:1158-1174`). -/
def sanitizeEntry (entry : JSVal) : ServerEntry :=
  let lastReview :=
    match jsGet entry "lastReview" with
    | .vnull => none
    | .vundefined => none
    | v =>
        match toNumber v with
        | .finite q => some q
        | _ => none
  { ease := sanitizeNumber (jsGet entry "ease") 2.5
    interval := max 0 (sanitizeNumber (jsGet entry "interval") 0)
    repetitions := max 0 (sanitizeNumber (jsGet entry "repetitions") 0)
    due := max 0 (sanitizeNumber (jsGet entry "due") 0)
    lastReview := lastReview
    totalReviews := max 0 (sanitizeNumber (jsGet entry "totalReviews") 0)
    lapses := max 0 (sanitizeNumber (jsGet entry "lapses") 0)
    seen := jsTruthy (jsGet entry "seen") }

/-- Source function `sanitizeProgress` (`app.js:1145-1182`).  `today` stands for
`new Date().toISOString().slice(0, 10)`. -/
def sanitizeProgress (today : String) (progress : JSVal) : ServerProgress :=
  let metaV := if jsTruthyObject (jsGet progress "meta") then jsGet progress "meta" else .vobj []
  let meta : Meta :=
    { lastReviewDay :=
        match jsGet metaV "lastReviewDay" with
        | .vstr s => s
        | _ => today
      reviewsToday := sanitizeNumber (jsGet metaV "reviewsToday") 0
      newToday := sanitizeNumber (jsGet metaV "newToday") 0 }
  let cards :=
    if jsTruthyObject (jsGet progress "cards") then
      (jsEntries (jsGet progress "cards")).filterMap fun p =>
        if jsTruthyObject p.2 then some (p.1, sanitizeEntry p.2) else none
    else []
  { cards := cards, meta := meta }

/-! ## Claim C1 -/

/-- The review record of the C1 scenario: `repetitions = 1`,
`interval = 6`, `ease = 2.5`, due 1000 ms in the past. -/
def c1Record (now tr lp : ℚ) (olr : Option ℚ) (sn : Bool) : Entry :=
  { ease := 2.5, interval := 6, repetitions := 1, due := now - 1000,
    lastReview := olr, totalReviews := tr, lapses := lp, seen := sn }

/-- Claim C1 as stated is false: grading the scenario record `Good` (2)
yields `interval = 6` (the hard-coded `repetitions === 1` branch), not
`round(6 × 2.5) = 15`.  Concrete input: `now = 1000000`. -/
theorem c1_counterexample :
    (applyGrade defaultSettings 1000000 (c1Record 1000000 3 0 none true) 2).interval ≠ 15 := by
  norm_num [applyGrade, qOr, c1Record]

/-- Claim C1 (amended): for the scenario record (`repetitions = 1`,
`interval = 6`, `ease = 2.5`, due in the past), grade `Good` (2) at time
`now` yields `interval = 6`, `repetitions = 2` and
`due = now + 6·86400000` (the `repetitions === 1` branch assigns the
fixed interval 6; the `round(interval × ease)` formula only applies from
`repetitions ≥ 2` on). -/
theorem c1_good_rep1 (s : Settings) (now tr lp : ℚ) (olr : Option ℚ) (sn : Bool) :
    (applyGrade s now (c1Record now tr lp olr sn) 2).interval = 6 ∧
    (applyGrade s now (c1Record now tr lp olr sn) 2).repetitions = 2 ∧
    (applyGrade s now (c1Record now tr lp olr sn) 2).due = now + 6 * 86400000 := by
  norm_num [applyGrade, qOr, c1Record]

/-! ## Claim C2 -/

/-- A record with `repetitions = 1` but `interval = 0` (such states are
accepted by the load/sanitize paths, which floor `interval` at 0, not 1). -/
def zeroIntervalRecord : Entry :=
  { ease := 2.5, interval := 0, repetitions := 1, due := 0,
    lastReview := none, totalReviews := 0, lapses := 0, seen := false }

/-- Claim C2 as stated is false: the Easy (3) branch at `repetitions = 1`
computes `Math.round(interval × 2.5)` with no floor of 1, so the record
with `interval = 0` keeps `interval = 0` under a non-Again grade. -/
theorem c2_counterexample :
    ¬ (1 ≤ (applyGrade defaultSettings 0 zeroIntervalRecord 3).interval) := by
  norm_num [applyGrade, qOr, zeroIntervalRecord, round_eq]

/-- Field equation: the Again branch zeroes the interval. -/
theorem applyGrade_zero_interval (s : Settings) (now : ℚ) (e : Entry) :
    (applyGrade s now e 0).interval = 0 := by
  simp [applyGrade]

/-- Field equation: the interval produced by the Hard (1) branch. -/
theorem applyGrade_one_interval (s : Settings) (now : ℚ) (e : Entry) :
    (applyGrade s now e 1).interval =
      if e.interval ≠ 0 then ((max 1 (round (e.interval * 1.2)) : ℤ) : ℚ) else 1 := by
  simp [applyGrade]

/-- Field equation: the interval produced by the Good (2) branch. -/
theorem applyGrade_two_interval (s : Settings) (now : ℚ) (e : Entry) :
    (applyGrade s now e 2).interval =
      if e.repetitions = 0 then 1
      else if e.repetitions = 1 then 6
      else ((max 1 (round (e.interval * qOr e.ease 2.5)) : ℤ) : ℚ) := by
  simp [applyGrade]

/-- Field equation: the interval produced by the Easy (3) branch. -/
theorem applyGrade_three_interval (s : Settings) (now : ℚ) (e : Entry) :
    (applyGrade s now e 3).interval =
      if e.repetitions = 0 then 4
      else if e.repetitions = 1 then ((round (e.interval * 2.5) : ℤ) : ℚ)
      else ((max 1 (round (e.interval * (qOr e.ease 2.5 + 0.15) * 1.3)) : ℤ) : ℚ) := by
  simp [applyGrade]

/-- Casting `Math.max(1, Math.round(x))` back to a number is at least 1. -/
theorem cast_one_le_max_round (z : ℤ) : (1 : ℚ) ≤ ((max 1 z : ℤ) : ℚ) := by
  exact_mod_cast le_max_left 1 z

/-- Claim C2 (amended): for every record with a natural-number interval
and every non-Again grade, the produced interval is at least 1, except in
the Easy (3) branch at `repetitions = 1` with `interval = 0`, whose
unfloored `round(interval × 2.5)` yields 0. -/
theorem c2_nonAgain_interval_pos (s : Settings) (now : ℚ) (e : Entry) (g k : ℕ)
    (hg : g = 1 ∨ g = 2 ∨ g = 3) (hk : e.interval = (k : ℚ)) :
    1 ≤ (applyGrade s now e g).interval ∨
      (g = 3 ∧ e.repetitions = 1 ∧ k = 0 ∧ (applyGrade s now e g).interval = 0) := by
  rcases hg with rfl | rfl | rfl
  · left
    rw [applyGrade_one_interval]
    by_cases h1 : e.interval ≠ 0
    · rw [if_pos h1]
      exact cast_one_le_max_round _
    · rw [if_neg h1]
  · left
    rw [applyGrade_two_interval]
    by_cases h1 : e.repetitions = 0
    · rw [if_pos h1]
    · rw [if_neg h1]
      by_cases h2 : e.repetitions = 1
      · rw [if_pos h2]
        norm_num
      · rw [if_neg h2]
        exact cast_one_le_max_round _
  · rw [applyGrade_three_interval]
    by_cases h1 : e.repetitions = 0
    · left
      rw [if_pos h1]
      norm_num
    · rw [if_neg h1]
      by_cases h2 : e.repetitions = 1
      · rw [if_pos h2]
        rcases k with _ | k
        · right
          refine ⟨rfl, h2, rfl, ?_⟩
          rw [hk]
          norm_num [round_eq]
        · left
          rw [hk]
          have hcast : ((k + 1 : ℕ) : ℚ) = (k : ℚ) + 1 := by push_cast; ring
          rw [hcast]
          have h3 : (1 : ℤ) ≤ round (((k : ℚ) + 1) * 2.5) := by
            rw [round_eq, Int.le_floor]
            push_cast
            nlinarith [Nat.cast_nonneg (α := ℚ) k]
          exact_mod_cast h3
      · rw [if_neg h2]
        left
        exact cast_one_le_max_round _

/-- Witness for C2 (amended): a concrete non-Again grade (`Good` on a
record with interval 5) lands in the `interval ≥ 1` disjunct. -/
theorem c2_witness :
    1 ≤ (applyGrade defaultSettings 0
        { ease := 2.5, interval := 5, repetitions := 3, due := 0,
          lastReview := none, totalReviews := 0, lapses := 0, seen := false } 2).interval ∨
      ((2 : ℕ) = 3 ∧
        ({ ease := 2.5, interval := 5, repetitions := 3, due := 0,
           lastReview := none, totalReviews := 0, lapses := 0, seen := false } : Entry).repetitions = 1 ∧
        (5 : ℕ) = 0 ∧
        (applyGrade defaultSettings 0
          { ease := 2.5, interval := 5, repetitions := 3, due := 0,
            lastReview := none, totalReviews := 0, lapses := 0, seen := false } 2).interval = 0) :=
  c2_nonAgain_interval_pos defaultSettings 0 _ 2 5 (Or.inr (Or.inl rfl)) (by norm_num)

/-! ## Claim C4 -/

/-- A record whose `ease` is the falsy number 0. -/
def easeZeroRecord : Entry :=
  { ease := 0, interval := 0, repetitions := 0, due := 0,
    lastReview := none, totalReviews := 0, lapses := 0, seen := false }

/-- Claim C4 as stated is false at `ease = 0`: the Again branch reads
`entry.ease || 2.5`, so a falsy prior ease is first defaulted to 2.5 and
the result is `2.5 − 0.2 = 2.3`, not `max(1.3, 0 − 0.2) = 1.3`. -/
theorem c4_counterexample :
    (applyGrade defaultSettings 0 easeZeroRecord 0).ease ≠
      max 1.3 (easeZeroRecord.ease - 0.2) := by
  norm_num [applyGrade, qOr, easeZeroRecord]

/-- Claim C4 (amended): for every record whose prior `ease` is not the
falsy number 0, grading `Again` (0) at time `now` yields `interval = 0`,
`repetitions = 0`, `due = now + lapseMinutes·60000`, `lapses` incremented
by 1, and `ease` decreased by 0.2 but floored at 1.3.  (A falsy prior
ease is first defaulted to 2.5 by `entry.ease || 2.5`.) -/
theorem c4_again (s : Settings) (now : ℚ) (e : Entry) (h : e.ease ≠ 0) :
    (applyGrade s now e 0).interval = 0 ∧
    (applyGrade s now e 0).repetitions = 0 ∧
    (applyGrade s now e 0).due = now + s.lapseMinutes * 60000 ∧
    (applyGrade s now e 0).lapses = e.lapses + 1 ∧
    (applyGrade s now e 0).ease = max 1.3 (e.ease - 0.2) := by
  refine ⟨applyGrade_zero_interval s now e, ?_, ?_, ?_, ?_⟩
  · simp [applyGrade]
  · show now + s.lapseMinutes * 60 * 1000 = now + s.lapseMinutes * 60000
    ring
  · show qOr e.lapses 0 + 1 = e.lapses + 1
    unfold qOr
    split_ifs with h0
    · rw [h0]
    · rfl
  · show max 1.3 (qOr e.ease 2.5 - 0.2) = max 1.3 (e.ease - 0.2)
    rw [qOr_of_ne_zero _ h]

/-- Witness for C4 (amended) at a concrete record with `ease = 2.5`,
`lapseMinutes = 10`, `now = 1000`. -/
theorem c4_witness :
    (applyGrade defaultSettings 1000 (defaultEntry 1000) 0).interval = 0 ∧
    (applyGrade defaultSettings 1000 (defaultEntry 1000) 0).repetitions = 0 ∧
    (applyGrade defaultSettings 1000 (defaultEntry 1000) 0).due =
      1000 + defaultSettings.lapseMinutes * 60000 ∧
    (applyGrade defaultSettings 1000 (defaultEntry 1000) 0).lapses =
      (defaultEntry 1000).lapses + 1 ∧
    (applyGrade defaultSettings 1000 (defaultEntry 1000) 0).ease =
      max 1.3 ((defaultEntry 1000).ease - 0.2) :=
  c4_again defaultSettings 1000 (defaultEntry 1000) (by norm_num [defaultEntry])

/-! ## Claim C5 -/

/-- Field equation: the ease produced by each grade branch. -/
theorem applyGrade_ease_eq (s : Settings) (now : ℚ) (e : Entry) (g : ℕ) :
    (applyGrade s now e g).ease =
      if g = 0 then max 1.3 (qOr e.ease 2.5 - 0.2)
      else if g = 1 then max 1.3 (qOr e.ease 2.5 - 0.15)
      else if g = 3 then qOr e.ease 2.5 + 0.15
      else qOr e.ease 2.5 := by
  by_cases h0 : g = 0
  · subst h0; simp [applyGrade]
  · by_cases h1 : g = 1
    · subst h1; simp [applyGrade]
    · by_cases h2 : g = 2
      · subst h2; simp [applyGrade]
      · by_cases h3 : g = 3
        · subst h3; simp [applyGrade]
        · simp [applyGrade, h0, h1, h2, h3]

/-- One grade application never takes `ease` below 1.3: each branch either
floors at 1.3, keeps the (nonzero) ease, or increases it. -/
theorem applyGrade_ease_ge (s : Settings) (now : ℚ) (e : Entry) (g : ℕ)
    (h : (1.3 : ℚ) ≤ e.ease) : (1.3 : ℚ) ≤ (applyGrade s now e g).ease := by
  have hne : e.ease ≠ 0 := by
    intro hz
    rw [hz] at h
    norm_num at h
  rw [applyGrade_ease_eq, qOr_of_ne_zero _ hne]
  split_ifs
  · exact le_max_left _ _
  · exact le_max_left _ _
  · linarith
  · exact h

/-- Claim C5: starting from any record with `ease ≥ 1.3`, any finite
sequence of grades (each applied at an arbitrary time) leaves
`ease ≥ 1.3`; in particular no run of Again/Hard grades drives it below
the floor. -/
theorem c5_ease_floor (s : Settings) (gs : List (ℕ × ℚ)) (e : Entry)
    (h : (1.3 : ℚ) ≤ e.ease) :
    (1.3 : ℚ) ≤ (gs.foldl (fun acc gn => applyGrade s gn.2 acc gn.1) e).ease := by
  induction gs generalizing e with
  | nil => exact h
  | cons gn rest ih => exact ih _ (applyGrade_ease_ge s gn.2 e gn.1 h)

/-- Witness for C5: a concrete Again-then-Hard sequence starting exactly
at the floor `ease = 1.3`. -/
theorem c5_witness :
    (1.3 : ℚ) ≤ (([(0, 5), (1, 7)] : List (ℕ × ℚ)).foldl
      (fun acc gn => applyGrade defaultSettings gn.2 acc gn.1)
      { ease := 1.3, interval := 2, repetitions := 1, due := 0,
        lastReview := none, totalReviews := 4, lapses := 1, seen := true }).ease :=
  c5_ease_floor defaultSettings _ _ (by norm_num)

/-! ## Claims C6 and C9 -/

/-- Frame fact: `buildQueues` only rewrites the two queues; the snapshot is
untouched. -/
theorem buildQueues_progress (catalog : List Card) (s : Settings) (now : ℚ)
    (st : AppState) : (buildQueues catalog s now st).progress = st.progress := rfl

/-- Frame fact: `pickNextCard` only moves a card out of a queue; the snapshot is
untouched. -/
theorem pickNextCard_progress (st : AppState) :
    (pickNextCard st).progress = st.progress := by
  rcases h1 : st.reviewQueue with _ | ⟨c, rest⟩ <;>
    rcases h2 : st.newQueue with _ | ⟨d, rest2⟩ <;>
      simp [pickNextCard, h1, h2]

/-- One grading event keeps `newToday ≤ dailyNewLimit`: the rollover
branch resets it to 0, the new-card branch clamps with
`Math.min(dailyNewLimit, ·)`, and every other path leaves it unchanged. -/
theorem gradeCard_newToday_le (catalog : List Card) (s : Settings) (today : String)
    (now : ℚ) (st : AppState) (g : ℕ) (hL : 0 ≤ s.dailyNewLimit)
    (h : st.progress.meta.newToday ≤ s.dailyNewLimit) :
    (gradeCard catalog s today now st g).progress.meta.newToday ≤ s.dailyNewLimit := by
  rcases hc : st.currentCard with _ | card
  · simpa [gradeCard, hc] using h
  · simp only [gradeCard, hc]
    rw [pickNextCard_progress, buildQueues_progress]
    simp only
    split_ifs <;>
      first
        | exact min_le_left _ _
        | exact hL
        | exact h

/-- Claim C6: starting from a snapshot with `newToday ≤ dailyNewLimit`
(the limit being nonnegative, as configured), any finite sequence of
grading events — each with its own calendar day, time and grade, over any
mix of new/review cards — keeps `newToday ≤ dailyNewLimit`. -/
theorem c6_newToday_le_limit (catalog : List Card) (s : Settings)
    (events : List (String × ℚ × ℕ)) (st : AppState)
    (hL : 0 ≤ s.dailyNewLimit) (h : st.progress.meta.newToday ≤ s.dailyNewLimit) :
    (events.foldl (fun acc ev => gradeCard catalog s ev.1 ev.2.1 acc ev.2.2)
        st).progress.meta.newToday ≤ s.dailyNewLimit := by
  induction events generalizing st with
  | nil => exact h
  | cons ev rest ih =>
      exact ih _ (gradeCard_newToday_le catalog s ev.1 ev.2.1 st ev.2.2 hL h)

/-- A concrete quiescent state used by the C6/C9 witnesses. -/
def sampleState : AppState :=
  { progress := { cards := [], meta := { lastReviewDay := "2024-01-01", reviewsToday := 0, newToday := 0 } }
    history := []
    reviewQueue := []
    newQueue := []
    currentCard := none
    currentKind := none
    showingAnswer := false
    mode := "en-ru"
    level := "all" }

/-- Witness for C6: a concrete two-event run under the default limit. -/
theorem c6_witness :
    (([("2024-01-01", 5, 2), ("2024-01-02", 9, 0)] : List (String × ℚ × ℕ)).foldl
        (fun acc ev => gradeCard [] defaultSettings ev.1 ev.2.1 acc ev.2.2)
        sampleState).progress.meta.newToday ≤ defaultSettings.dailyNewLimit :=
  c6_newToday_le_limit [] defaultSettings _ sampleState
    (by norm_num [defaultSettings]) (by norm_num [sampleState, defaultSettings])

/-- Claim C9: when no card is selected (`state.currentCard == null`),
`gradeCard` returns at once and the whole state — snapshot, history and
both queues — is unchanged. -/
theorem c9_grade_noop (catalog : List Card) (s : Settings) (today : String)
    (now : ℚ) (st : AppState) (g : ℕ) (h : st.currentCard = none) :
    gradeCard catalog s today now st g = st := by
  simp [gradeCard, h]

/-- Witness for C9: grading with no current card at a concrete state. -/
theorem c9_witness :
    gradeCard [] defaultSettings "2024-01-01" 0 sampleState 2 = sampleState :=
  c9_grade_noop [] defaultSettings "2024-01-01" 0 sampleState 2 rfl

/-! ## Claim C7 -/

/-- The Boolean condition under which the classification loop pushes a
card to the review list (`entry.due && entry.due <= now`). -/
def reviewCond (lookup : String → Option Entry) (now : ℚ) (c : Card) : Bool :=
  match lookup c.word with
  | some e => decide (e.due ≠ 0 ∧ e.due ≤ now)
  | none => false

/-- The Boolean condition under which the classification loop pushes a
card to the fresh list (no record, or `!entry.due`). -/
def freshCond (lookup : String → Option Entry) (c : Card) : Bool :=
  match lookup c.word with
  | none => true
  | some e => decide (e.due = 0)

/-- The classification loop is the pair of filters by the two conditions
(a card with truthy `due` not yet due satisfies neither). -/
theorem partitionDue_eq (lookup : String → Option Entry) (now : ℚ)
    (cards : List Card) :
    partitionDue lookup now cards =
      (cards.filter (reviewCond lookup now), cards.filter (freshCond lookup)) := by
  induction cards with
  | nil => rfl
  | cons c rest ih =>
    rcases h : lookup c.word with _ | e
    · simp [partitionDue, h, ih, List.filter_cons, reviewCond, freshCond]
    · by_cases hr : e.due ≠ 0 ∧ e.due ≤ now
      · have hf : ¬e.due = 0 := hr.1
        simp [partitionDue, h, ih, List.filter_cons, reviewCond, freshCond, hr, hf]
      · by_cases hf : e.due = 0
        · simp [partitionDue, h, ih, List.filter_cons, reviewCond, freshCond, hr, hf]
        · have hle : ¬e.due ≤ now := fun hle => hr ⟨hf, hle⟩
          simp [partitionDue, h, ih, List.filter_cons, reviewCond, freshCond, hr, hf, hle]

/-- Claim C7: for any catalog list, lookup table and time `now`, the
classification loop of `buildQueues` places a card in the fresh (new)
list exactly when it has no record or a falsy `due`; in the review list
exactly when its record has a truthy `due ≤ now`; and a card whose record
has a truthy `due > now` lands in neither list. -/
theorem c7_queue_partition (lookup : String → Option Entry) (now : ℚ)
    (cards : List Card) (c : Card) :
    (c ∈ (partitionDue lookup now cards).2 ↔
        c ∈ cards ∧ (lookup c.word = none ∨ ∃ e, lookup c.word = some e ∧ e.due = 0))
  ∧ (c ∈ (partitionDue lookup now cards).1 ↔
        c ∈ cards ∧ ∃ e, lookup c.word = some e ∧ e.due ≠ 0 ∧ e.due ≤ now)
  ∧ (∀ e, lookup c.word = some e → e.due ≠ 0 → now < e.due →
        c ∉ (partitionDue lookup now cards).1 ∧ c ∉ (partitionDue lookup now cards).2) := by
  rw [partitionDue_eq]
  refine ⟨?_, ?_, ?_⟩
  · simp only [List.mem_filter]
    constructor
    · rintro ⟨hm, hf⟩
      refine ⟨hm, ?_⟩
      rcases h : lookup c.word with _ | e
      · exact Or.inl rfl
      · rw [freshCond, h] at hf
        simp at hf
        exact Or.inr ⟨e, rfl, hf⟩
    · rintro ⟨hm, hcond⟩
      refine ⟨hm, ?_⟩
      rcases hcond with h | ⟨e, he, hd⟩
      · rw [freshCond, h]
      · rw [freshCond, he]
        simpa using hd
  · simp only [List.mem_filter]
    constructor
    · rintro ⟨hm, hf⟩
      refine ⟨hm, ?_⟩
      rcases h : lookup c.word with _ | e
      · rw [reviewCond, h] at hf
        exact absurd hf (by simp)
      · rw [reviewCond, h] at hf
        simp at hf
        exact ⟨e, rfl, hf⟩
    · rintro ⟨hm, e, he, hd⟩
      refine ⟨hm, ?_⟩
      rw [reviewCond, he]
      simpa using hd
  · intro e he hne hlt
    constructor
    · intro hmem
      rw [List.mem_filter, reviewCond, he] at hmem
      simp at hmem
      exact absurd hmem.2.2 (not_le.mpr hlt)
    · intro hmem
      rw [List.mem_filter, freshCond, he] at hmem
      simp at hmem
      exact absurd hmem.2 hne

/-- A concrete lookup table for the C7 witness: one overdue word, one
scheduled in the future. -/
def c7Lookup : String → Option Entry
  | "later" => some { ease := 2.5, interval := 3, repetitions := 2, due := 500,
                      lastReview := none, totalReviews := 2, lapses := 0, seen := true }
  | _ => none

/-- A catalog card whose record is not yet due at `now = 100`. -/
def laterCard : Card := { word := "later", translation := "potom", level := none }

/-- Witness for C7: at `now = 100` the card due at 500 is excluded from
both the review and the fresh list. -/
theorem c7_witness :
    laterCard ∉ (partitionDue c7Lookup 100 [laterCard]).1 ∧
      laterCard ∉ (partitionDue c7Lookup 100 [laterCard]).2 :=
  (c7_queue_partition c7Lookup 100 [laterCard] laterCard).2.2
    { ease := 2.5, interval := 3, repetitions := 2, due := 500,
      lastReview := none, totalReviews := 2, lapses := 0, seen := true }
    rfl (by norm_num) (by norm_num)

/-! ## Claim C3 -/

/-- A non-empty previous in-memory snapshot (the deep copy that
`loadProgress` takes on entry). -/
def prevSnap : JSVal :=
  .vobj [("cards", .vobj [("hello", .vobj [("due", .vnum (.finite 5))])]),
         ("meta", .vobj [("lastReviewDay", .vstr "2024-01-01"),
                         ("reviewsToday", .vnum (.finite 3)),
                         ("newToday", .vnum (.finite 1))])]

/-- A validated local-cache snapshot distinct from `prevSnap`. -/
def storedSnap : JSVal :=
  .vobj [("cards", .vobj [("world", .vobj [("due", .vnum (.finite 7))])]),
         ("meta", .vobj [("lastReviewDay", .vstr "2024-01-01"),
                         ("reviewsToday", .vnum (.finite 1)),
                         ("newToday", .vnum (.finite 0))])]

/-- Claim C3 as stated is false: signed in, remote \x22not found\x22, no
local cache — the adopted snapshot is the previous in-memory snapshot
(`storedProgress || fallbackProgress` picks `fallbackProgress`, whose
`cards` object is truthy), not a freshly-empty one. -/
theorem c3_counterexample :
    loadProgress "2024-01-02" true .notFound none prevSnap = prevSnap ∧
      prevSnap ≠ createEmptyProgress "2024-01-02" := by
  constructor
  · rfl
  · intro hcontra
    simp [prevSnap, createEmptyProgress] at hcontra

/-- Claim C3 (amended): when the learner is authenticated and the remote
fetch reports \x22not found\x22, the adopted snapshot is the local-cache
snapshot if one is present; otherwise it is the previous in-memory
snapshot when that copy has a (truthy) `cards` field, and a freshly-empty
snapshot only when it does not. -/
theorem c3_notFound_fallback (today : String) (stored : Option JSVal) (prev : JSVal) :
    (∀ sv, stored = some sv → jsTruthy (jsGet sv "cards") = true →
        loadProgress today true .notFound stored prev = sv)
  ∧ (jsTruthy (jsGet prev "cards") = true →
        loadProgress today true .notFound none prev = prev)
  ∧ (jsTruthy (jsGet prev "cards") = false →
        loadProgress today true .notFound none prev = createEmptyProgress today) := by
  refine ⟨?_, ?_, ?_⟩
  · rintro sv rfl hTrue
    simp [loadProgress, localFallback, hTrue]
  · intro hTrue
    simp [loadProgress, localFallback, hTrue]
  · intro hFalse
    simp [loadProgress, localFallback, hFalse]

/-- Witness for C3 (amended): with a local cache present it wins over the
previous in-memory snapshot. -/
theorem c3_witness :
    loadProgress "2024-01-02" true .notFound (some storedSnap) prevSnap = storedSnap :=
  (c3_notFound_fallback "2024-01-02" (some storedSnap) prevSnap).1 storedSnap rfl rfl

/-! ## Claim C8 -/

/-- Claim C8: when signed in and the remote write fails, `persistProgress`
still writes the snapshot to the local cache and re-throws; and no remote
outcome — in either front-end variant, including the 401/404 paths of the
`part_000` variant — ever prevents or alters the local-cache write. -/
theorem c8_persist_remote_failure (signedIn : Bool) (remote : RemoteWriteResult)
    (snapshot : Progress) (hs : signedIn = true) (hr : remote = .failed) :
    (persistProgress signedIn remote snapshot).1 = some snapshot
  ∧ (persistProgress signedIn remote snapshot).2.2 = true
  ∧ (∀ r, (persistProgress signedIn r snapshot).1 = some snapshot)
  ∧ (∀ hT r, (persistProgressApi signedIn hT r snapshot).1 = some snapshot)
  ∧ persistProgressApi signedIn true .otherFailure snapshot = (some snapshot, true)
  ∧ persistProgressApi signedIn true .status401 snapshot = (some snapshot, true) := by
  subst hs hr
  refine ⟨rfl, rfl, ?_, ?_, rfl, rfl⟩
  · intro r
    cases r <;> rfl
  · intro hT r
    cases hT <;> cases r <;> rfl

/-- Witness for C8 at a concrete snapshot. -/
theorem c8_witness :
    (persistProgress true .failed sampleState.progress).1 = some sampleState.progress ∧
      (persistProgress true .failed sampleState.progress).2.2 = true :=
  ⟨(c8_persist_remote_failure true .failed sampleState.progress rfl rfl).1,
   (c8_persist_remote_failure true .failed sampleState.progress rfl rfl).2.1⟩

/-! ## Claim C10 -/

/-- Every record the server sanitizer emits has nonnegative counters: the
numeric fields are clamped with `Math.max(0, ·)`. -/
theorem sanitizeEntry_nonneg (v : JSVal) :
    0 ≤ (sanitizeEntry v).interval ∧ 0 ≤ (sanitizeEntry v).repetitions ∧
    0 ≤ (sanitizeEntry v).due ∧ 0 ≤ (sanitizeEntry v).totalReviews ∧
    0 ≤ (sanitizeEntry v).lapses := by
  refine ⟨le_max_left _ _, le_max_left _ _, le_max_left _ _, le_max_left _ _,
    le_max_left _ _⟩

/-- Claim C10: for every input value, every card entry of the sanitized
snapshot has `interval ≥ 0`, `repetitions ≥ 0`, `due ≥ 0`,
`totalReviews ≥ 0` and `lapses ≥ 0` (with `seen` a boolean and
`lastReview` an optional number by construction); a missing or
non-finite `ease` defaults to 2.5, and a finite `ease` passes through
unclamped — in particular values below 1.3 survive. -/
theorem c10_sanitize (today : String) (v : JSVal) :
    (∀ p ∈ (sanitizeProgress today v).cards,
        0 ≤ p.2.interval ∧ 0 ≤ p.2.repetitions ∧ 0 ≤ p.2.due ∧
        0 ≤ p.2.totalReviews ∧ 0 ≤ p.2.lapses)
  ∧ (sanitizeEntry (.vobj [])).ease = 2.5
  ∧ (∀ q : ℚ, (sanitizeEntry (.vobj [("ease", .vnum (.finite q))])).ease = q) := by
  refine ⟨?_, rfl, fun q => rfl⟩
  intro p hp
  simp only [sanitizeProgress] at hp
  split at hp
  · rcases List.mem_filterMap.mp hp with ⟨a, ha, hfa⟩
    split at hfa
    · cases hfa
      exact sanitizeEntry_nonneg a.2
    · cases hfa
  · cases hp

/-- A malformed input entry for the C10 witness: a non-numeric interval
and an ease below the client floor. -/
def oddEntryVal : JSVal :=
  .vobj [("interval", .vstr "oops"), ("ease", .vnum (.finite 1))]

/-- A progress input holding the malformed entry. -/
def oddProgressVal : JSVal := .vobj [("cards", .vobj [("w", oddEntryVal)])]

/-- Witness for C10: the sanitized malformed entry is in the output and
satisfies the bounds; its sub-1.3 ease passes through. -/
theorem c10_witness :
    (0 ≤ (sanitizeEntry oddEntryVal).interval ∧
     0 ≤ (sanitizeEntry oddEntryVal).repetitions ∧
     0 ≤ (sanitizeEntry oddEntryVal).due ∧
     0 ≤ (sanitizeEntry oddEntryVal).totalReviews ∧
     0 ≤ (sanitizeEntry oddEntryVal).lapses) ∧
    (sanitizeEntry (.vobj [("ease", .vnum (.finite 1))])).ease = 1 :=
  ⟨(c10_sanitize "2024-01-01" oddProgressVal).1 ("w", sanitizeEntry oddEntryVal)
      (by
        have hc : (sanitizeProgress "2024-01-01" oddProgressVal).cards =
            [("w", sanitizeEntry oddEntryVal)] := rfl
        rw [hc]
        exact List.mem_singleton.mpr rfl),
   (c10_sanitize "2024-01-01" oddProgressVal).2.2 1⟩

end Flashcards
